import Mathlib

/-!
Shallow embedding of `src/core/NEON/kernels/NEArithmeticSubtractionKernel.cpp`
(ARM ComputeLibrary). The kernel computes `output = input1 - input2`
elementwise over a window, dispatching on (ConvertPolicy, input1 type,
input2 type, output type) to one of 18 string-keyed table entries backed by
14 distinct compute functions.

Machine integers are modelled as `Int` with explicit range hypotheses;
wraparound uses `% 2^w` recentred to the signed range where the lane type is
signed. NEON intrinsics are translated per their architectural semantics:
`vsubq_u8`/`vsubq_s16` wrap at the lane width, `vqsubq_u8`/`vqsubq_s16`
saturate to the lane range, `vmovl_u8` zero-extends 8-bit lanes to 16 bits.
-/

/-- Element data types of the kernel (`DataType` enum restricted to the six
types this kernel accepts, plus `Unknown` for an uninitialised output). -/
inductive DataType where
  | Unknown
  | QS8
  | U8
  | QS16
  | S16
  | F16
  | F32
deriving DecidableEq, Repr, Fintype

/-- Overflow policy (`ConvertPolicy`): WRAP wraps modulo the lane width,
SATURATE clamps to the lane range. -/
inductive ConvertPolicy where
  | WRAP
  | SATURATE
deriving DecidableEq, Repr, Fintype

/-- `is_data_type_fixed_point`: QS8 and QS16 are fixed-point types. -/
def is_data_type_fixed_point : DataType → Bool
  | .QS8 => true
  | .QS16 => true
  | _ => false

/-- Modelled from the spec: `string_from_data_type` (Utils.cpp is not part of
this slice); yields the type names used to build the dispatch key. -/
def string_from_data_type : DataType → String
  | .Unknown => "UNKNOWN"
  | .QS8 => "QS8"
  | .U8 => "U8"
  | .QS16 => "QS16"
  | .S16 => "S16"
  | .F16 => "F16"
  | .F32 => "F32"

/-- Two's-complement wraparound of an unsigned 8-bit lane result. -/
def wrapU8 (x : Int) : Int := x % 256

/-- Unsigned 8-bit saturation (semantics of `vqsubq_u8` applied to the exact
difference): clamp to [0, 255]. -/
def satU8 (x : Int) : Int := max 0 (min x 255)

/-- Two's-complement wraparound of a signed 16-bit lane result. -/
def wrapS16 (x : Int) : Int := (x + 32768) % 65536 - 32768

/-- Signed 16-bit saturation (semantics of `vqsubq_s16`): clamp to
[-32768, 32767]. -/
def satS16 (x : Int) : Int := max (-32768) (min x 32767)

/-- Two's-complement wraparound of a signed 8-bit lane result. -/
def wrapS8 (x : Int) : Int := (x + 128) % 256 - 128

/-- Signed 8-bit saturation: clamp to [-128, 127]. -/
def satS8 (x : Int) : Int := max (-128) (min x 127)

/-- Per-lane semantics of `sub_wrap_U8_U8_U8` (`vsubq_u8 ta1 ta2`). -/
def sub_wrap_U8_U8_U8_lane (a b : Int) : Int := wrapU8 (a - b)

/-- Per-lane semantics of `sub_saturate_U8_U8_U8` (`vqsubq_u8 ta1 ta2`). -/
def sub_saturate_U8_U8_U8_lane (a b : Int) : Int := satU8 (a - b)

/-- Per-lane semantics of `sub_wrap_S16_S16_S16` (`vsubq_s16` applied to
each of the two interleaved half-width groups; per lane the interleaving is
the identity). -/
def sub_wrap_S16_S16_S16_lane (a b : Int) : Int := wrapS16 (a - b)

/-- Per-lane semantics of `sub_saturate_S16_S16_S16` (`vqsubq_s16`). -/
def sub_saturate_S16_S16_S16_lane (a b : Int) : Int := satS16 (a - b)

/-- Modelled from the spec: per-lane semantics of `sub_wrap_QS8_QS8_QS8`.
`vsubq_qs8` comes from NEFixedPoint.h, which is not part of this slice; the
spec (§4.3) states WRAP on 8-bit fixed-point performs two's-complement
wraparound at the 8-bit width. -/
def sub_wrap_QS8_QS8_QS8_lane (a b : Int) : Int := wrapS8 (a - b)

/-- Modelled from the spec: per-lane semantics of `sub_saturate_QS8_QS8_QS8`.
`vqsubq_qs8` comes from NEFixedPoint.h, not part of this slice; the spec
(§4.3) states SATURATE clamps to [type-min, type-max]. -/
def sub_saturate_QS8_QS8_QS8_lane (a b : Int) : Int := satS8 (a - b)

/-- Per-lane semantics of `sub_wrap_S16_U8_S16`: `a1 = vsubq_s16 a1
(vreinterpretq_s16_u16 (vmovl_u8 bv))`; the u8 operand is zero-extended, so
its lane value (0..255) is unchanged. -/
def sub_wrap_S16_U8_S16_lane (a b : Int) : Int := wrapS16 (a - b)

/-- Per-lane semantics of `sub_saturate_S16_U8_S16` (`vqsubq_s16` against the
zero-extended u8 operand). -/
def sub_saturate_S16_U8_S16_lane (a b : Int) : Int := satS16 (a - b)

/-- Per-lane semantics of `sub_wrap_U8_S16_S16`: the u8 operand (input1) is
zero-extended and the s16 operand (input2) subtracted from it with
`vsubq_s16`. -/
def sub_wrap_U8_S16_S16_lane (a b : Int) : Int := wrapS16 (a - b)

/-- Per-lane semantics of `sub_saturate_U8_S16_S16` (`vqsubq_s16`). -/
def sub_saturate_U8_S16_S16_lane (a b : Int) : Int := satS16 (a - b)

/-- Per-lane semantics of `sub_wrap_U8_U8_S16`: both u8 operands are
zero-extended to 16 bits, then subtracted with `vsubq_s16`. -/
def sub_wrap_U8_U8_S16_lane (a b : Int) : Int := wrapS16 (a - b)

/-- Per-lane semantics of `sub_saturate_U8_U8_S16` (`vqsubq_s16` on the
zero-extended operands). -/
def sub_saturate_U8_U8_S16_lane (a b : Int) : Int := satS16 (a - b)

/-- Identifiers for the 14 distinct compute functions defined in the
anonymous namespace of the source file. The dispatch table maps 18 keys onto
these (QS16 keys reuse the S16 functions; both F32 keys and both F16 keys
reuse a single function each). -/
inductive SubFunction where
  | sub_wrap_QS8_QS8_QS8
  | sub_saturate_QS8_QS8_QS8
  | sub_wrap_U8_U8_U8
  | sub_saturate_U8_U8_U8
  | sub_wrap_S16_S16_S16
  | sub_saturate_S16_S16_S16
  | sub_F16_F16_F16
  | sub_F32_F32_F32
  | sub_wrap_S16_U8_S16
  | sub_saturate_S16_U8_S16
  | sub_wrap_U8_S16_S16
  | sub_saturate_U8_S16_S16
  | sub_wrap_U8_U8_S16
  | sub_saturate_U8_U8_S16
deriving DecidableEq, Repr, Fintype

/-- The static dispatch table `map_function` (configure, lines 392-413):
string keys to compute-function references, exactly the 18 entries of the
source. -/
def map_function : List (String × SubFunction) :=
  [ ("sub_wrap_QS8_QS8_QS8", .sub_wrap_QS8_QS8_QS8),
    ("sub_saturate_QS8_QS8_QS8", .sub_saturate_QS8_QS8_QS8),
    ("sub_wrap_U8_U8_U8", .sub_wrap_U8_U8_U8),
    ("sub_wrap_U8_U8_S16", .sub_wrap_U8_U8_S16),
    ("sub_saturate_U8_U8_U8", .sub_saturate_U8_U8_U8),
    ("sub_saturate_U8_U8_S16", .sub_saturate_U8_U8_S16),
    ("sub_wrap_U8_S16_S16", .sub_wrap_U8_S16_S16),
    ("sub_wrap_S16_U8_S16", .sub_wrap_S16_U8_S16),
    ("sub_saturate_U8_S16_S16", .sub_saturate_U8_S16_S16),
    ("sub_saturate_S16_U8_S16", .sub_saturate_S16_U8_S16),
    ("sub_wrap_QS16_QS16_QS16", .sub_wrap_S16_S16_S16),
    ("sub_saturate_QS16_QS16_QS16", .sub_saturate_S16_S16_S16),
    ("sub_wrap_S16_S16_S16", .sub_wrap_S16_S16_S16),
    ("sub_saturate_S16_S16_S16", .sub_saturate_S16_S16_S16),
    ("sub_wrap_F32_F32_F32", .sub_F32_F32_F32),
    ("sub_saturate_F32_F32_F32", .sub_F32_F32_F32),
    ("sub_wrap_F16_F16_F16", .sub_F16_F16_F16),
    ("sub_saturate_F16_F16_F16", .sub_F16_F16_F16) ]

/-- The dispatch key built by `configure` (lines 419-423):
`"sub_" + ("wrap_" | "saturate_") + type1 + "_" + type2 + "_" + type3`. -/
def function_to_call (policy : ConvertPolicy) (t1 t2 t3 : DataType) : String :=
  "sub_" ++ (if policy = .WRAP then "wrap_" else "saturate_") ++
    string_from_data_type t1 ++ "_" ++
    string_from_data_type t2 ++ "_" ++
    string_from_data_type t3

/-- Table lookup (`map_function.find(function_to_call)`, line 425). -/
def lookupFunction (policy : ConvertPolicy) (t1 t2 t3 : DataType) :
    Option SubFunction :=
  (map_function.find? (fun e => e.1 == function_to_call policy t1 t2 t3)).map
    (·.2)

/-- The error taxonomy of the spec (§7). `configure` and `run` surface these
conditions; in the source they are raised by `ARM_COMPUTE_ERROR*` macros. -/
inductive ErrorCondition where
  | InvalidArgument
  | ShapeMismatch
  | UnsupportedType
  | InvalidTypeCombination
  | FixedPointMismatch
  | NotConfigured
  | InvalidSubwindow
deriving DecidableEq, Repr, Fintype

/-- Tensor metadata as used by this kernel: shape, element type and
fixed-point fractional-bit position. An uninitialised shape is `[]` and an
uninitialised element type is `Unknown`. -/
structure TensorInfo where
  shape : List Nat
  dataType : DataType
  fixedPointPos : Nat
deriving DecidableEq, Repr

/-- One window dimension: (start, end, step). -/
structure WinDim where
  start : Int
  stop : Int
  step : Int
deriving DecidableEq, Repr

/-- An iteration window: a list of per-dimension (start, end, step)
triples. -/
abbrev Window : Type := List WinDim

/-- Modelled from the spec: `set_shape_if_empty` (Helpers.h is not part of
this slice): "if the output tensor's shape is unset, adopt input1's
shape". -/
def set_shape_if_empty (info : TensorInfo) (shape : List Nat) : TensorInfo :=
  if info.shape = [] then { info with shape := shape } else info

/-- Modelled from the spec: `set_format_if_unknown` (Helpers.h is not part
of this slice): set the element type only "if the output's element type is
unset". -/
def set_format_if_unknown (info : TensorInfo) (t : DataType) : TensorInfo :=
  if info.dataType = .Unknown then { info with dataType := t } else info

/-- Output auto-initialisation block of `configure` (lines 362-378): adopt
input1's shape if the output shape is empty, then infer an unknown output
type by the source's if/else chain S16, then F16, then F32, testing both
inputs at each step. -/
def autoInitOutput (i1 i2 o : TensorInfo) : TensorInfo :=
  let o1 := set_shape_if_empty o i1.shape
  if i1.dataType = .S16 ∨ i2.dataType = .S16 then
    set_format_if_unknown o1 .S16
  else if i1.dataType = .F16 ∨ i2.dataType = .F16 then
    set_format_if_unknown o1 .F16
  else if i1.dataType = .F32 ∨ i2.dataType = .F32 then
    set_format_if_unknown o1 .F32
  else o1

/-- The six element types this kernel admits
(`ARM_COMPUTE_ERROR_ON_DATA_TYPE_CHANNEL_NOT_IN`, lines 381-383). -/
def admissibleType (t : DataType) : Bool :=
  [DataType.QS8, .U8, .QS16, .S16, .F16, .F32].contains t

/-- The validation checks of `configure` that run after output
auto-initialisation and before the tensor handles are stored (lines
380-390), in source order. The shape and fixed-point checks are modelled
from the spec (§4.1 steps 2 and 5) since the `Validate.h` macros are not
part of this slice; the U8-output condition is written out in the source
(lines 384-385). -/
def configureChecks (i1 i2 o : TensorInfo) : Option ErrorCondition :=
  if ¬(i1.shape = i2.shape ∧ i1.shape = o.shape) then
    some .ShapeMismatch
  else if ¬(admissibleType i1.dataType ∧ admissibleType i2.dataType ∧
            admissibleType o.dataType) then
    some .UnsupportedType
  else if o.dataType = .U8 ∧ (i1.dataType ≠ .U8 ∨ i2.dataType ≠ .U8) then
    some .InvalidTypeCombination
  else if (is_data_type_fixed_point i1.dataType ∨
           is_data_type_fixed_point i2.dataType ∨
           is_data_type_fixed_point o.dataType) ∧
          ¬(i1.dataType = i2.dataType ∧ i1.dataType = o.dataType ∧
            i1.fixedPointPos = i2.fixedPointPos ∧
            i1.fixedPointPos = o.fixedPointPos) then
    some .FixedPointMismatch
  else none

/-- Round up to the next multiple of 16 (the per-iteration element count). -/
def ceilTo16 (n : Nat) : Nat := ((n + 15) / 16) * 16

/-- Modelled from the spec: `calculate_max_window` with `Steps(16)`
(Helpers.h is not part of this slice): the maximal window steps 16 elements
per iteration along dimension 0 (end rounded up so vector accesses cover the
extent) and 1 along the higher dimensions. -/
def calculate_max_window (i1 : TensorInfo) : Window :=
  match i1.shape with
  | [] => [⟨0, 0, 16⟩]
  | d0 :: rest =>
      ⟨0, Int.ofNat (ceilTo16 d0), 16⟩ ::
        rest.map (fun d => ⟨0, Int.ofNat d, 1⟩)

/-- Kernel instance state (`NEArithmeticSubtractionKernel` members plus the
window stored by `INEKernel::configure`). The default-constructed instance
(lines 353-356) has every field vacant. -/
structure KernelState where
  func : Option SubFunction
  input1 : Option TensorInfo
  input2 : Option TensorInfo
  output : Option TensorInfo
  window : Option Window
deriving DecidableEq

/-- The freshly constructed kernel instance (constructor, lines 353-356). -/
def initialKernel : KernelState :=
  { func := none, input1 := none, input2 := none, output := none,
    window := none }

/-- `NEArithmeticSubtractionKernel::configure` (lines 358-453) as a state
transition. Inputs are `Option TensorInfo` to model null tensor pointers.
Returns the kernel state after the call, the (possibly auto-initialised)
output tensor info, and the error condition if any. Mutation order follows
the source: the null check, then output auto-initialisation, then the
validation checks, then the tensor-handle stores (lines 415-417), then the
dispatch lookup (line 425) whose failure raises the "wrong image formats"
error (line 433) after the handles were already stored, then window
computation and `INEKernel::configure` (lines 436-452). -/
def configure (s : KernelState) (oi1 oi2 oo : Option TensorInfo)
    (policy : ConvertPolicy) :
    KernelState × Option TensorInfo × Option ErrorCondition :=
  match oi1, oi2, oo with
  | some i1, some i2, some o =>
    let o' := autoInitOutput i1 i2 o
    match configureChecks i1 i2 o' with
    | some e => (s, some o', some e)
    | none =>
      let s1 := { s with input1 := some i1, input2 := some i2,
                         output := some o' }
      match lookupFunction policy i1.dataType i2.dataType o'.dataType with
      | some f =>
          ({ s1 with func := some f,
                     window := some (calculate_max_window i1) },
           some o', none)
      | none => (s1, some o', some .InvalidTypeCombination)
  | _, _, _ => (s, oo, some .InvalidArgument)

/-- Modelled from the spec: one dimension of the sub-window validity check
(`ARM_COMPUTE_ERROR_ON_INVALID_SUBWINDOW` is in Validate.h, not part of this
slice): the sub-window must lie within the configured bounds and use the
same step. -/
def dimContains (full sub : WinDim) : Bool :=
  full.start ≤ sub.start && sub.stop ≤ full.stop && sub.step == full.step

/-- Modelled from the spec: a window is a valid sub-window of the configured
window when it has the same dimensionality and each dimension lies within
the configured bounds with an identical step. -/
def isValidSubwindow (full sub : Window) : Bool :=
  List.length full == List.length sub &&
    (List.zip full sub).all (fun p => dimContains p.1 p.2)

/-- `NEArithmeticSubtractionKernel::run` (lines 455-463): check the kernel
is configured (the unconfigured-kernel and null-function checks both map to
`NotConfigured`), check the supplied window is a valid sub-window of the
configured one, then invoke the resolved function over exactly the supplied
window. On success the result records which function is invoked and on
which window. -/
def run (s : KernelState) (w : Window) :
    Except ErrorCondition (SubFunction × Window) :=
  match s.window with
  | none => .error .NotConfigured
  | some full =>
    if ¬ isValidSubwindow full w then .error .InvalidSubwindow
    else
      match s.func with
      | none => .error .NotConfigured
      | some f => .ok (f, w)

/-- 16-lane vector semantics of `sub_saturate_U8_U8_U8`: one
`execute_window_loop` iteration loads 16 u8 lanes from each input and stores
`vqsubq_u8` of them. -/
def sub_saturate_U8_U8_U8_vec (a b : List Int) : List Int :=
  List.zipWith sub_saturate_U8_U8_U8_lane a b

/-- 16-lane vector semantics of `sub_wrap_U8_U8_U8` (`vsubq_u8`). -/
def sub_wrap_U8_U8_U8_vec (a b : List Int) : List Int :=
  List.zipWith sub_wrap_U8_U8_U8_lane a b

/-- 16-lane vector semantics of `sub_wrap_U8_U8_S16`: both u8 vectors are
zero-extended (`vmovl_u8` on low and high halves) and subtracted with
`vsubq_s16`, storing 16 s16 lanes. -/
def sub_wrap_U8_U8_S16_vec (a b : List Int) : List Int :=
  List.zipWith sub_wrap_U8_U8_S16_lane a b

/-- 16-lane vector semantics of `sub_saturate_U8_U8_S16` (`vqsubq_s16` on
the zero-extended operands). -/
def sub_saturate_U8_U8_S16_vec (a b : List Int) : List Int :=
  List.zipWith sub_saturate_U8_U8_S16_lane a b

/-- The half-float compute function `sub_F16_F16_F16` (lines 175-197),
parameterised by the build-time capability `ARM_COMPUTE_ENABLE_FP16` and by
the lane type and lane subtraction (floating-point values are left
abstract): with the capability it subtracts lane-wise; without it, it
reaches `ARM_COMPUTE_ERROR` unconditionally, i.e. fails with
`UnsupportedType` before touching any tensor. -/
def sub_F16_F16_F16_model {α : Type} (fp16Enabled : Bool) (vsub : α → α → α)
    (a b : List α) : Except ErrorCondition (List α) :=
  if fp16Enabled then .ok (List.zipWith vsub a b)
  else .error .UnsupportedType

/-- The set of dispatchable 4-tuples as the spec enumerates it (§4.2): this
definition follows the spec's words, for comparison with `lookupFunction`,
which is translated from the source. -/
def specDispatchSet (t1 t2 t3 : DataType) : Bool :=
  (t1 == t2 && t2 == t3 && admissibleType t1) ||
  ((t1 == .U8 && t2 == .S16 || t1 == .S16 && t2 == .U8) && t3 == .S16) ||
  (t1 == .U8 && t2 == .U8 && t3 == .S16)

/-- A sample configured kernel state: the U8 wrap function with a single
16-element window dimension, as produced by configuring two flat 16-element
U8 tensors under WRAP. -/
def sampleConfiguredKernel : KernelState :=
  { func := some .sub_wrap_U8_U8_U8, input1 := some ⟨[16], .U8, 0⟩,
    input2 := some ⟨[16], .U8, 0⟩, output := some ⟨[16], .U8, 0⟩,
    window := some [⟨0, 16, 16⟩] }

/-- C1: for the integer element types (unsigned 8-bit, signed 16-bit, and
the 8/16-bit fixed-point types, whose lane arithmetic is that of the signed
8-bit and plain signed 16-bit functions), whenever `a - b` is representable
in the output type the WRAP and SATURATE lane functions agree and equal
`a - b`; when `a - b` overflows, WRAP yields the two's-complement
wraparound value at the output width and SATURATE yields the clamped
type-min or type-max. -/
theorem c1_wrap_saturate_boundary : ∀ a b : Int,
    ((0 ≤ a ∧ a ≤ 255 ∧ 0 ≤ b ∧ b ≤ 255) →
      ((0 ≤ a - b →
         sub_wrap_U8_U8_U8_lane a b = a - b ∧
         sub_saturate_U8_U8_U8_lane a b = a - b) ∧
       (a - b < 0 →
         sub_wrap_U8_U8_U8_lane a b = a - b + 256 ∧
         sub_saturate_U8_U8_U8_lane a b = 0))) ∧
    ((-32768 ≤ a ∧ a ≤ 32767 ∧ -32768 ≤ b ∧ b ≤ 32767) →
      ((-32768 ≤ a - b ∧ a - b ≤ 32767 →
         sub_wrap_S16_S16_S16_lane a b = a - b ∧
         sub_saturate_S16_S16_S16_lane a b = a - b) ∧
       (32767 < a - b →
         sub_wrap_S16_S16_S16_lane a b = a - b - 65536 ∧
         sub_saturate_S16_S16_S16_lane a b = 32767) ∧
       (a - b < -32768 →
         sub_wrap_S16_S16_S16_lane a b = a - b + 65536 ∧
         sub_saturate_S16_S16_S16_lane a b = -32768))) ∧
    ((-128 ≤ a ∧ a ≤ 127 ∧ -128 ≤ b ∧ b ≤ 127) →
      ((-128 ≤ a - b ∧ a - b ≤ 127 →
         sub_wrap_QS8_QS8_QS8_lane a b = a - b ∧
         sub_saturate_QS8_QS8_QS8_lane a b = a - b) ∧
       (127 < a - b →
         sub_wrap_QS8_QS8_QS8_lane a b = a - b - 256 ∧
         sub_saturate_QS8_QS8_QS8_lane a b = 127) ∧
       (a - b < -128 →
         sub_wrap_QS8_QS8_QS8_lane a b = a - b + 256 ∧
         sub_saturate_QS8_QS8_QS8_lane a b = -128))) := by
  intro a b
  simp only [sub_wrap_U8_U8_U8_lane, sub_saturate_U8_U8_U8_lane,
    sub_wrap_S16_S16_S16_lane, sub_saturate_S16_S16_S16_lane,
    sub_wrap_QS8_QS8_QS8_lane, sub_saturate_QS8_QS8_QS8_lane,
    wrapU8, satU8, wrapS16, satS16, wrapS8, satS8]
  omega

/-- Witness for C1: at the underflowing unsigned 8-bit pair (10, 250), WRAP
gives the wraparound value 16 and SATURATE clamps to 0. -/
theorem c1_wrap_saturate_boundary_witness :
    sub_wrap_U8_U8_U8_lane 10 250 = 10 - 250 + 256 ∧
    sub_saturate_U8_U8_U8_lane 10 250 = 0 :=
  ((c1_wrap_saturate_boundary 10 250).1 (by norm_num)).2 (by norm_num)

/-- C2 counterexample: the 4-tuple (WRAP, QS8, QS16, QS16) lies outside the
dispatch table's key set, yet `configure` fails with `FixedPointMismatch`,
not `InvalidTypeCombination` as the claim states. -/
theorem c2_counterexample :
    specDispatchSet .QS8 .QS16 .QS16 = false ∧
    lookupFunction .WRAP .QS8 .QS16 .QS16 = none ∧
    (configure initialKernel (some ⟨[16], .QS8, 0⟩) (some ⟨[16], .QS16, 0⟩)
        (some ⟨[16], .QS16, 0⟩) .WRAP).2.2 =
      some .FixedPointMismatch ∧
    (ErrorCondition.FixedPointMismatch ≠ ErrorCondition.InvalidTypeCombination) := by
  decide

/-- C2 amended: over the six admissible element types (equal shapes,
equal fixed-point positions), `configure` resolves a non-null compute
function for exactly the 4-tuples of the dispatch table — the same-type
triples, the U8/S16 mixed cases with S16 output, and U8/U8 with S16 output,
in both policies — and for every 4-tuple outside that set it resolves no
function and fails: with `InvalidTypeCombination`, except that a tuple
which passes the U8-output rule but mixes fixed-point types inconsistently
fails earlier with `FixedPointMismatch`. -/
theorem c2_dispatch_coverage : ∀ (p : ConvertPolicy) (t1 t2 t3 : DataType),
    t1 ≠ .Unknown → t2 ≠ .Unknown → t3 ≠ .Unknown →
    ((specDispatchSet t1 t2 t3 = true →
      (configure initialKernel (some ⟨[16], t1, 0⟩) (some ⟨[16], t2, 0⟩)
          (some ⟨[16], t3, 0⟩) p).2.2 = none ∧
      (configure initialKernel (some ⟨[16], t1, 0⟩) (some ⟨[16], t2, 0⟩)
          (some ⟨[16], t3, 0⟩) p).1.func = lookupFunction p t1 t2 t3 ∧
      (lookupFunction p t1 t2 t3).isSome = true) ∧
     (specDispatchSet t1 t2 t3 = false →
      lookupFunction p t1 t2 t3 = none ∧
      (configure initialKernel (some ⟨[16], t1, 0⟩) (some ⟨[16], t2, 0⟩)
          (some ⟨[16], t3, 0⟩) p).1.func = none ∧
      (configure initialKernel (some ⟨[16], t1, 0⟩) (some ⟨[16], t2, 0⟩)
          (some ⟨[16], t3, 0⟩) p).2.2 =
        some (if t3 = .U8 ∧ ¬(t1 = .U8 ∧ t2 = .U8) then
                ErrorCondition.InvalidTypeCombination
              else if is_data_type_fixed_point t1 ∨
                      is_data_type_fixed_point t2 ∨
                      is_data_type_fixed_point t3 then
                ErrorCondition.FixedPointMismatch
              else ErrorCondition.InvalidTypeCombination))) := by
  decide

/-- Witness for C2 amended: (SATURATE, U8, S16, S16) is in the dispatch set
and configures successfully; (WRAP, U8, U8, F32) is outside it and fails
with `InvalidTypeCombination`. -/
theorem c2_dispatch_coverage_witness :
    ((configure initialKernel (some ⟨[16], .U8, 0⟩) (some ⟨[16], .S16, 0⟩)
        (some ⟨[16], .S16, 0⟩) .SATURATE).2.2 = none ∧
     (configure initialKernel (some ⟨[16], .U8, 0⟩) (some ⟨[16], .S16, 0⟩)
        (some ⟨[16], .S16, 0⟩) .SATURATE).1.func =
       lookupFunction .SATURATE .U8 .S16 .S16 ∧
     (lookupFunction .SATURATE .U8 .S16 .S16).isSome = true) ∧
    lookupFunction .WRAP .U8 .U8 .F32 = none ∧
    (configure initialKernel (some ⟨[16], .U8, 0⟩) (some ⟨[16], .U8, 0⟩)
        (some ⟨[16], .F32, 0⟩) .WRAP).1.func = none ∧
    (configure initialKernel (some ⟨[16], .U8, 0⟩) (some ⟨[16], .U8, 0⟩)
        (some ⟨[16], .F32, 0⟩) .WRAP).2.2 =
      some ErrorCondition.InvalidTypeCombination :=
  ⟨(c2_dispatch_coverage .SATURATE .U8 .S16 .S16 (by decide) (by decide)
      (by decide)).1 (by decide),
   (c2_dispatch_coverage .WRAP .U8 .U8 .F32 (by decide) (by decide)
      (by decide)).2 (by decide)⟩

/-- C3 counterexample: under WRAP at (x, y) = (0, -32768) both operand
orders produce -32768, which is not the arithmetic negation (32768); under
SATURATE at (x, y) = (255, -32768) the two orders give 32767 and -32768,
again not arithmetic negations. -/
theorem c3_counterexample :
    sub_wrap_U8_S16_S16_lane 0 (-32768) = -32768 ∧
    sub_wrap_S16_U8_S16_lane (-32768) 0 = -32768 ∧
    sub_wrap_U8_S16_S16_lane 0 (-32768) ≠
      -(sub_wrap_S16_U8_S16_lane (-32768) 0) ∧
    sub_saturate_U8_S16_S16_lane 255 (-32768) = 32767 ∧
    sub_saturate_S16_U8_S16_lane (-32768) 255 = -32768 ∧
    sub_saturate_U8_S16_S16_lane 255 (-32768) ≠
      -(sub_saturate_S16_U8_S16_lane (-32768) 255) := by
  decide

/-- C3 amended: for representable x (unsigned 8-bit) and y (signed 16-bit),
under WRAP the mixed-width result of unsigned8(x) - signed16(y) is the
arithmetic negation of signed16(y) - unsigned8(x) for every pair except
those with x - y = 32768 exactly, where both operand orders yield -32768
(whose negation is unrepresentable); under SATURATE the identity holds
precisely when x - y ≤ 32767 (x - y ≥ -32767 always holds) and fails for
every x - y ≥ 32768, where the two orders clamp asymmetrically to 32767
and -32768. -/
theorem c3_mixed_negation : ∀ x y : Int,
    0 ≤ x → x ≤ 255 → -32768 ≤ y → y ≤ 32767 →
    ((x - y ≠ 32768 →
      sub_wrap_U8_S16_S16_lane x y = -(sub_wrap_S16_U8_S16_lane y x)) ∧
     (x - y = 32768 →
      sub_wrap_U8_S16_S16_lane x y = -32768 ∧
      sub_wrap_S16_U8_S16_lane y x = -32768 ∧
      sub_wrap_U8_S16_S16_lane x y ≠ -(sub_wrap_S16_U8_S16_lane y x)) ∧
     (x - y ≤ 32767 →
      sub_saturate_U8_S16_S16_lane x y =
        -(sub_saturate_S16_U8_S16_lane y x)) ∧
     (32768 ≤ x - y →
      sub_saturate_U8_S16_S16_lane x y = 32767 ∧
      sub_saturate_S16_U8_S16_lane y x = -32768 ∧
      sub_saturate_U8_S16_S16_lane x y ≠
        -(sub_saturate_S16_U8_S16_lane y x))) := by
  intro x y h1 h2 h3 h4
  simp only [sub_wrap_U8_S16_S16_lane, sub_wrap_S16_U8_S16_lane,
    sub_saturate_U8_S16_S16_lane, sub_saturate_S16_U8_S16_lane,
    wrapS16, satS16]
  omega

/-- Witness for C3 amended: at (x, y) = (255, -32514), where
x - y = 32769 overflows the signed 16-bit range, the WRAP results are
still arithmetic negations of each other while the SATURATE results are
32767 versus -(-32768). -/
theorem c3_mixed_negation_witness :
    (sub_wrap_U8_S16_S16_lane 255 (-32514) =
      -(sub_wrap_S16_U8_S16_lane (-32514) 255)) ∧
    (sub_saturate_U8_S16_S16_lane 255 (-32514) = 32767 ∧
     sub_saturate_S16_U8_S16_lane (-32514) 255 = -32768 ∧
     sub_saturate_U8_S16_S16_lane 255 (-32514) ≠
       -(sub_saturate_S16_U8_S16_lane (-32514) 255)) :=
  have h := c3_mixed_negation 255 (-32514) (by norm_num) (by norm_num)
    (by norm_num) (by norm_num)
  ⟨h.1 (by norm_num), h.2.2.2 (by norm_num)⟩

/-- C4: on a 16-element window with input1 all-10s and input2 all-250s
(both unsigned 8-bit): with SATURATE and U8 output the dispatched function
is `sub_saturate_U8_U8_U8` and the output is all 0s; with S16 output the
dispatched functions are `sub_wrap_U8_U8_S16` / `sub_saturate_U8_U8_S16`
and the output is all -240s under either policy. -/
theorem c4_example_scenario :
    lookupFunction .SATURATE .U8 .U8 .U8 = some .sub_saturate_U8_U8_U8 ∧
    sub_saturate_U8_U8_U8_vec (List.replicate 16 10)
      (List.replicate 16 250) = List.replicate 16 0 ∧
    lookupFunction .WRAP .U8 .U8 .S16 = some .sub_wrap_U8_U8_S16 ∧
    sub_wrap_U8_U8_S16_vec (List.replicate 16 10)
      (List.replicate 16 250) = List.replicate 16 (-240) ∧
    lookupFunction .SATURATE .U8 .U8 .S16 = some .sub_saturate_U8_U8_S16 ∧
    sub_saturate_U8_U8_S16_vec (List.replicate 16 10)
      (List.replicate 16 250) = List.replicate 16 (-240) := by
  decide

/-- C5: the WRAP and SATURATE dispatch entries for (F32, F32, F32) resolve
to the same compute function `sub_F32_F32_F32`, and those for
(F16, F16, F16) resolve to the same compute function `sub_F16_F16_F16`;
being the very same function, the two policies produce identical results on
every input. -/
theorem c5_float_policy_alias :
    lookupFunction .WRAP .F32 .F32 .F32 = some .sub_F32_F32_F32 ∧
    lookupFunction .SATURATE .F32 .F32 .F32 = some .sub_F32_F32_F32 ∧
    lookupFunction .WRAP .F16 .F16 .F16 = some .sub_F16_F16_F16 ∧
    lookupFunction .SATURATE .F16 .F16 .F16 = some .sub_F16_F16_F16 ∧
    lookupFunction .WRAP .F32 .F32 .F32 =
      lookupFunction .SATURATE .F32 .F32 .F32 ∧
    lookupFunction .WRAP .F16 .F16 .F16 =
      lookupFunction .SATURATE .F16 .F16 .F16 := by
  decide

/-- C6: `configure` auto-initialises the output before any validation check:
an unset output shape becomes input1's shape (a set shape is kept); an
unset output element type is inferred in strict priority S16, then F16,
then F32, each chosen when either input declares that type, and otherwise
left unset (a set type is kept). The output info every validation check and
the dispatch see — returned by `configure` even when validation fails — is
exactly this auto-initialised info. -/
theorem c6_auto_init : ∀ (i1 i2 o : TensorInfo) (p : ConvertPolicy)
    (s : KernelState),
    (o.shape = [] → (autoInitOutput i1 i2 o).shape = i1.shape) ∧
    (o.shape ≠ [] → (autoInitOutput i1 i2 o).shape = o.shape) ∧
    (o.dataType = .Unknown →
      (autoInitOutput i1 i2 o).dataType =
        (if i1.dataType = .S16 ∨ i2.dataType = .S16 then .S16
         else if i1.dataType = .F16 ∨ i2.dataType = .F16 then .F16
         else if i1.dataType = .F32 ∨ i2.dataType = .F32 then .F32
         else .Unknown)) ∧
    (o.dataType ≠ .Unknown →
      (autoInitOutput i1 i2 o).dataType = o.dataType) ∧
    (configure s (some i1) (some i2) (some o) p).2.1 =
      some (autoInitOutput i1 i2 o) := by
  intro i1 i2 o p s
  refine ⟨?_, ?_, ?_, ?_, ?_⟩
  · intro h
    simp only [autoInitOutput, set_shape_if_empty, set_format_if_unknown, h]
    split_ifs <;> simp_all
  · intro h
    simp only [autoInitOutput, set_shape_if_empty, set_format_if_unknown]
    split_ifs <;> simp_all
  · intro h
    simp only [autoInitOutput, set_shape_if_empty, set_format_if_unknown]
    split_ifs <;> simp_all
  · intro h
    simp only [autoInitOutput, set_shape_if_empty, set_format_if_unknown]
    split_ifs <;> simp_all
  · simp only [configure]
    split
    · rfl
    · split <;> rfl

/-- Witness for C6: with input1 U8-typed of shape [16], input2 S16-typed,
and a fully unset output, the auto-initialised output adopts shape [16] and
type S16, and a failing `configure` call still returns it. -/
theorem c6_auto_init_witness :
    (autoInitOutput ⟨[16], .U8, 0⟩ ⟨[16], .S16, 0⟩ ⟨[], .Unknown, 0⟩).shape =
      [16] ∧
    (autoInitOutput ⟨[16], .U8, 0⟩ ⟨[16], .S16, 0⟩
        ⟨[], .Unknown, 0⟩).dataType = .S16 ∧
    (configure initialKernel (some ⟨[16], .U8, 0⟩) (some ⟨[16], .S16, 0⟩)
        (some ⟨[], .Unknown, 0⟩) .WRAP).2.1 =
      some (autoInitOutput ⟨[16], .U8, 0⟩ ⟨[16], .S16, 0⟩
        ⟨[], .Unknown, 0⟩) := by
  refine ⟨?_, ?_,
    (c6_auto_init ⟨[16], .U8, 0⟩ ⟨[16], .S16, 0⟩ ⟨[], .Unknown, 0⟩ .WRAP
      initialKernel).2.2.2.2⟩
  · exact (c6_auto_init ⟨[16], .U8, 0⟩ ⟨[16], .S16, 0⟩ ⟨[], .Unknown, 0⟩
      .WRAP initialKernel).1 rfl
  · have h := (c6_auto_init ⟨[16], .U8, 0⟩ ⟨[16], .S16, 0⟩ ⟨[], .Unknown, 0⟩
      .WRAP initialKernel).2.2.1 rfl
    simpa using h

/-- C7: `run` fails with `NotConfigured` when no window was recorded by
configuration; fails with `InvalidSubwindow` when the supplied window is
not a valid sub-window of the recorded one; and on success invokes exactly
the resolved compute function over exactly the supplied window. It performs
no other tensor validation: its outcome is unchanged under arbitrary
replacement of the stored tensor handles. -/
theorem c7_run_contract : ∀ (s : KernelState) (w : Window),
    (s.window = none → run s w = .error .NotConfigured) ∧
    (∀ full, s.window = some full → isValidSubwindow full w = false →
      run s w = .error .InvalidSubwindow) ∧
    (∀ full f, s.window = some full → s.func = some f →
      isValidSubwindow full w = true → run s w = .ok (f, w)) ∧
    (∀ t1 t2 t3, run { s with input1 := t1, input2 := t2, output := t3 } w =
      run s w) := by
  intro s w
  refine ⟨?_, ?_, ?_, ?_⟩
  · intro h
    simp [run, h]
  · intro full h hsub
    simp [run, h, hsub]
  · intro full f h hf hsub
    simp [run, h, hf, hsub]
  · intro t1 t2 t3
    simp [run]

/-- Witness for C7: a kernel configured with the U8 wrap function and a
16-element window accepts that very window and invokes the function on it;
the fresh kernel is rejected with `NotConfigured`. -/
theorem c7_run_contract_witness :
    run sampleConfiguredKernel [⟨0, 16, 16⟩] =
      .ok (.sub_wrap_U8_U8_U8, [⟨0, 16, 16⟩]) ∧
    run initialKernel [⟨0, 16, 16⟩] = .error .NotConfigured :=
  ⟨(c7_run_contract sampleConfiguredKernel [⟨0, 16, 16⟩]).2.2.1
      [⟨0, 16, 16⟩] .sub_wrap_U8_U8_U8 rfl rfl (by decide),
   (c7_run_contract initialKernel [⟨0, 16, 16⟩]).1 rfl⟩

/-- C8: when the build lacks native half-float vector arithmetic
(`ARM_COMPUTE_ENABLE_FP16` absent), the half-float compute path fails with
`UnsupportedType` on every invocation, for every lane type, lane
subtraction and input vectors, computing nothing. -/
theorem c8_f16_unsupported : ∀ (α : Type) (vsub : α → α → α)
    (a b : List α),
    sub_F16_F16_F16_model false vsub a b =
      .error ErrorCondition.UnsupportedType := by
  intro α vsub a b
  rfl

/-- C9 counterexample: `configure` on a fresh kernel with types
(U8, U8, F32) under WRAP fails with `InvalidTypeCombination`, yet the
kernel's stored input1 handle has changed from its pre-call state (the
handles are stored before the dispatch lookup), contradicting the claim
that all fields remain unchanged on every failure. -/
theorem c9_counterexample :
    (configure initialKernel (some ⟨[16], .U8, 0⟩) (some ⟨[16], .U8, 0⟩)
        (some ⟨[16], .F32, 0⟩) .WRAP).2.2 =
      some .InvalidTypeCombination ∧
    (configure initialKernel (some ⟨[16], .U8, 0⟩) (some ⟨[16], .U8, 0⟩)
        (some ⟨[16], .F32, 0⟩) .WRAP).1.input1 = some ⟨[16], .U8, 0⟩ ∧
    initialKernel.input1 = none ∧
    (configure initialKernel (some ⟨[16], .U8, 0⟩) (some ⟨[16], .U8, 0⟩)
        (some ⟨[16], .F32, 0⟩) .WRAP).1.input1 ≠ initialKernel.input1 := by
  decide

/-- C9 amended: whenever `configure` fails, the resolved function and the
configured window are unchanged from their pre-call state (so the instance
remains unconfigured and no compute function can run). The tensor handles
are also unchanged on every failure raised before the handle stores — the
null-argument check and all the validation checks, the U8-output rule's
`InvalidTypeCombination` included — and are overwritten with the call's
tensors exactly when the validation checks pass and the dispatch lookup
then fails. -/
theorem c9_failure_frame : ∀ (s : KernelState)
    (oi1 oi2 oo : Option TensorInfo) (p : ConvertPolicy)
    (e : ErrorCondition),
    (configure s oi1 oi2 oo p).2.2 = some e →
    ((configure s oi1 oi2 oo p).1.func = s.func ∧
     (configure s oi1 oi2 oo p).1.window = s.window) ∧
    (e ≠ .InvalidTypeCombination → (configure s oi1 oi2 oo p).1 = s) ∧
    ((oi1 = none ∨ oi2 = none ∨ oo = none) →
      (configure s oi1 oi2 oo p).1 = s) ∧
    (∀ i1 i2 o, oi1 = some i1 → oi2 = some i2 → oo = some o →
      (configureChecks i1 i2 (autoInitOutput i1 i2 o) ≠ none →
        (configure s oi1 oi2 oo p).1 = s) ∧
      (configureChecks i1 i2 (autoInitOutput i1 i2 o) = none →
        (configure s oi1 oi2 oo p).1 =
          { s with input1 := some i1, input2 := some i2,
                   output := some (autoInitOutput i1 i2 o) })) := by
  intro s oi1 oi2 oo p e h
  match hi1 : oi1, hi2 : oi2, ho : oo with
  | none, _, _ | some _, none, _ | some _, some _, none =>
    simp_all [configure]
  | some i1, some i2, some o =>
    simp only [configure] at h ⊢
    rcases hc : configureChecks i1 i2 (autoInitOutput i1 i2 o) with _ | e'
    · rcases hl : lookupFunction p i1.dataType i2.dataType
          (autoInitOutput i1 i2 o).dataType with _ | f
      · simp_all
      · simp_all
    · simp_all

/-- Witness for C9 amended: a `configure` call with null tensors fails with
`InvalidArgument` and leaves the fresh kernel state fully unchanged, and a
call tripping the U8-output rule (inputs S16/S16, output U8), whose error
is also `InvalidTypeCombination`, likewise leaves it fully unchanged. -/
theorem c9_failure_frame_witness :
    ((configure initialKernel none none none .WRAP).1.func =
       initialKernel.func ∧
     (configure initialKernel none none none .WRAP).1.window =
       initialKernel.window) ∧
    (configure initialKernel none none none .WRAP).1 = initialKernel ∧
    (configure initialKernel (some ⟨[16], .S16, 0⟩) (some ⟨[16], .S16, 0⟩)
        (some ⟨[16], .U8, 0⟩) .WRAP).2.2 =
      some .InvalidTypeCombination ∧
    (configure initialKernel (some ⟨[16], .S16, 0⟩) (some ⟨[16], .S16, 0⟩)
        (some ⟨[16], .U8, 0⟩) .WRAP).1 = initialKernel :=
  have h := c9_failure_frame initialKernel none none none .WRAP
    .InvalidArgument rfl
  have h2 := c9_failure_frame initialKernel (some ⟨[16], .S16, 0⟩)
    (some ⟨[16], .S16, 0⟩) (some ⟨[16], .U8, 0⟩) .WRAP
    .InvalidTypeCombination (by decide)
  ⟨h.1, (h.2.2.1 (.inl rfl)),
   by decide,
   ((h2.2.2.2 ⟨[16], .S16, 0⟩ ⟨[16], .S16, 0⟩ ⟨[16], .U8, 0⟩ rfl rfl
       rfl).1 (by decide))⟩

/-- C10: the QS16 dispatch entries resolve, for both policies, to the very
same compute functions as the S16 entries (`sub_wrap_S16_S16_S16` /
`sub_saturate_S16_S16_S16`), whose per-lane semantics is plain 16-bit
integer wraparound/saturating subtraction, taking no fixed-point
fractional-bit position into account. -/
theorem c10_qs16_aliases_s16 :
    lookupFunction .WRAP .QS16 .QS16 .QS16 = some .sub_wrap_S16_S16_S16 ∧
    lookupFunction .SATURATE .QS16 .QS16 .QS16 =
      some .sub_saturate_S16_S16_S16 ∧
    lookupFunction .WRAP .QS16 .QS16 .QS16 =
      lookupFunction .WRAP .S16 .S16 .S16 ∧
    lookupFunction .SATURATE .QS16 .QS16 .QS16 =
      lookupFunction .SATURATE .S16 .S16 .S16 ∧
    (∀ a b : Int, sub_wrap_S16_S16_S16_lane a b = wrapS16 (a - b) ∧
      sub_saturate_S16_S16_S16_lane a b = satS16 (a - b)) :=
  ⟨by decide, by decide, by decide, by decide, fun a b => ⟨rfl, rfl⟩⟩
